import Mathlib

/-!
Verification development for the geph5 client embedding boundary
(`src/binaries/geph5-client/geph5_client.h`).

The repository ships only the C header declaring the four boundary
functions (`start_client`, `daemon_rpc`, `send_pkt`, `recv_pkt`) together
with their documented return-code contracts; the implementation behind
the header is not part of the source tree.  The behavioural model below
is therefore built from the specification (lifecycle manager, RPC
gateway, packet queues) together with the return codes documented in the
header itself.
-/

namespace Geph5Client

/-- Modelled from the spec: the lifecycle state of the process-wide
daemon, `Unstarted | Starting | Running | Failed | Stopped`
(spec section 3, DaemonHandle).  The implementation behind the header is
not in the source tree. -/
inductive LifecycleState
  | Unstarted
  | Starting
  | Running
  | Failed
  | Stopped
deriving DecidableEq, Repr

/-- A packet is an opaque byte sequence with a length; bytes are
modelled as natural numbers (spec section 3, Packet). -/
abbrev Packet := List Nat

/-- Modelled from the spec: the DaemonHandle, the only mutable shared
state: lifecycle state, the live tunnel runtime (counted, to state the
at-most-one-runtime invariant), and the two bounded packet queues with
their fixed capacities (spec sections 3 and 4.1).  The implementation
behind the header is not in the source tree. -/
structure DaemonState where
  lifecycle : LifecycleState
  runtimeCount : Nat
  outboundQueue : List Packet
  inboundQueue : List Packet
  outboundCapacity : Nat
  inboundCapacity : Nat
deriving DecidableEq, Repr

/-- Status code of a successful `start_client`, from the header:
0 on success. -/
def START_OK : Int := 0

/-- Modelled from the spec: a distinct nonzero status code for
`AlreadyRunning` (spec section 6); the header fixes only that failure is
non-zero. -/
def START_ALREADY_RUNNING : Int := 1

/-- Modelled from the spec: a distinct nonzero status code for
`InvalidConfig` (spec section 6); the header fixes only that failure is
non-zero. -/
def START_INVALID_CONFIG : Int := 2

/-- Code of `daemon_rpc` from the header: -1 if daemon not started. -/
def RPC_NOT_STARTED : Int := -1

/-- Code of `daemon_rpc` from the header: -2 for JSON-RPC error. -/
def RPC_JSONRPC_ERROR : Int := -2

/-- Code of `daemon_rpc` from the header: -3 if buffer not big enough. -/
def RPC_BUFFER_TOO_SMALL : Int := -3

/-- Code of `daemon_rpc` from the header: -4 if writing to buffer failed. -/
def RPC_WRITE_FAILED : Int := -4

/-- Code of `send_pkt` from the header: 0 on success. -/
def SEND_OK : Int := 0

/-- Code of `send_pkt` from the header: -1 on failure (all failure causes
collapsed into this single code). -/
def SEND_FAILURE : Int := -1

/-- Modelled from the spec: the `recv_pkt` code for `NotRunning`; the
header says only "negative value on error", the spec requires a distinct
negative constant per error class (spec sections 6 and 7). -/
def RECV_NOT_RUNNING : Int := -1

/-- Modelled from the spec: the `recv_pkt` code for `BufferTooSmall`
(packet retained); distinct negative constant (spec sections 6 and 7). -/
def RECV_BUFFER_TOO_SMALL : Int := -3

/-- Modelled from the spec: the `recv_pkt` code for the transient
`WouldBlock` outcome on an empty inbound queue; distinct negative
constant (spec sections 6 and 7). -/
def RECV_WOULD_BLOCK : Int := -5

/-- Two-phase bounded write of `src` into the front of `dst`: the first
`src.length` cells are overwritten, every later cell is untouched
(spec section 9, buffer-bounded output contract). -/
def writeBytes (src dst : List Nat) : List Nat :=
  src ++ dst.drop src.length

/-- Modelled from the spec: `start_client` (spec section 4.1).  Fails
with `AlreadyRunning` when a DaemonHandle exists in `Starting` or
`Running` state, constructing nothing; fails with `InvalidConfig` before
any resource is allocated when validation (an external collaborator,
abstracted as the boolean `cfgValid`) rejects the configuration;
otherwise constructs the queues and the single tunnel runtime and
transitions to `Running`.  The implementation behind the header is not
in the source tree. -/
def start_client (s : DaemonState) (cfgValid : Bool) (outCap inCap : Nat) :
    Int × DaemonState :=
  match s.lifecycle with
  | .Starting => (START_ALREADY_RUNNING, s)
  | .Running => (START_ALREADY_RUNNING, s)
  | _ =>
    if cfgValid then
      (START_OK,
       { lifecycle := .Running, runtimeCount := 1,
         outboundQueue := [], inboundQueue := [],
         outboundCapacity := outCap, inboundCapacity := inCap })
    else
      (START_INVALID_CONFIG, s)

/-- Modelled from the spec: the terminal outcome the tunnel runtime
hands back for one RPC work item — a response payload, the structured
JSON-RPC error, or a failure to write the serialized response (spec
section 4.2).  The runtime itself is an external collaborator, so the
outcome is a parameter of `daemon_rpc`. -/
inductive RpcOutcome
  | ok (resp : List Nat)
  | jsonRpcError
  | writeFailed
deriving DecidableEq, Repr

/-- Modelled from the spec: `daemon_rpc` (spec sections 4.2 and 6) with
the return codes of the header.  Not running yields -1; a JSON-RPC level
error yields -2; a response that does not fit in `out_buflen` yields -3
with the buffer left untouched; a write failure yields -4; otherwise the
response is serialized into the buffer and its length returned.  The
implementation behind the header is not in the source tree. -/
def daemon_rpc (s : DaemonState) (outcome : RpcOutcome)
    (out_buf : List Nat) (out_buflen : Nat) : Int × List Nat :=
  if s.lifecycle ≠ .Running then
    (RPC_NOT_STARTED, out_buf)
  else
    match outcome with
    | .jsonRpcError => (RPC_JSONRPC_ERROR, out_buf)
    | .writeFailed => (RPC_WRITE_FAILED, out_buf)
    | .ok resp =>
      if out_buflen < resp.length then
        (RPC_BUFFER_TOO_SMALL, out_buf)
      else
        ((resp.length : Int), writeBytes resp out_buf)

/-- Modelled from the spec: `send_pkt` / `enqueue_outbound` (spec
sections 4.3 and 6) with the header's collapsed codes: 0 on success, -1
on every failure (daemon not running, or the bounded-blocking deadline
on a full outbound queue exceeded).  On success the packet is appended
at the tail of the bounded FIFO outbound queue.  The implementation
behind the header is not in the source tree. -/
def send_pkt (s : DaemonState) (pkt : Packet) : Int × DaemonState :=
  if s.lifecycle ≠ .Running then
    (SEND_FAILURE, s)
  else if s.outboundCapacity ≤ s.outboundQueue.length then
    (SEND_FAILURE, s)
  else
    (SEND_OK, { s with outboundQueue := s.outboundQueue ++ [pkt] })

/-- Modelled from the spec: `recv_pkt` / `dequeue_inbound` (spec
sections 4.3 and 6).  Not running fails immediately; an empty inbound
queue yields the transient `WouldBlock`; a head packet larger than the
buffer yields `BufferTooSmall` with the packet retained at the head and
the buffer untouched; otherwise the head packet is consumed, written
into the front of the buffer, and its length returned.  The
implementation behind the header is not in the source tree. -/
def recv_pkt (s : DaemonState) (out_buf : List Nat) (out_buflen : Nat) :
    Int × List Nat × DaemonState :=
  if s.lifecycle ≠ .Running then
    (RECV_NOT_RUNNING, out_buf, s)
  else
    match s.inboundQueue with
    | [] => (RECV_WOULD_BLOCK, out_buf, s)
    | pkt :: rest =>
      if out_buflen < pkt.length then
        (RECV_BUFFER_TOO_SMALL, out_buf, s)
      else
        ((pkt.length : Int), writeBytes pkt out_buf,
         { s with inboundQueue := rest })

/-- Modelled from the spec: one terminal outcome of an RPC invocation —
response, structured error, or timeout (spec section 4.2, delivery
guarantee). -/
inductive RpcTerminal
  | response (payload : List Nat)
  | error (code : Int) (msg : List Nat)
  | timeout
deriving DecidableEq, Repr

/-- Modelled from the spec: a terminal outcome tagged with the
correlation identity of the request it answers (spec sections 3
and 4.2). -/
structure TaggedOutcome where
  corrId : Nat
  outcome : RpcTerminal
deriving DecidableEq, Repr

/-- Modelled from the spec: the RPC gateway's correlation matching — a
suspended invocation with correlation identity `corrId` is resumed by
the first arriving outcome carrying exactly that identity, never by
arrival order (spec sections 4.2 and 5). -/
def deliverTo (corrId : Nat) (arrivals : List TaggedOutcome) :
    Option TaggedOutcome :=
  arrivals.find? (fun r => r.corrId == corrId)

/-- Sequentially enqueue a list of packets from one caller thread via
`send_pkt`, returning the final daemon state and the per-call status
codes. -/
def enqueueAll (s : DaemonState) (pkts : List Packet) :
    DaemonState × List Int :=
  match pkts with
  | [] => (s, [])
  | p :: rest =>
    let r := send_pkt s p
    let rr := enqueueAll r.2 rest
    (rr.1, r.1 :: rr.2)

/-- Relation `Interleave a b q` : the queue contents `q` are one of the possible
interleavings of the packet sequences enqueued by two concurrent caller
threads `a` and `b` (spec section 5, ordering guarantees). -/
inductive Interleave : List Packet → List Packet → List Packet → Prop
  | nil : Interleave [] [] []
  | left {a b q : List Packet} (p : Packet) :
      Interleave a b q → Interleave (p :: a) b (p :: q)
  | right {a b q : List Packet} (p : Packet) :
      Interleave a b q → Interleave a (p :: b) (p :: q)

/-- A concrete running daemon state with empty queues, used to evaluate
the theorems on concrete inputs. -/
def runningState : DaemonState :=
  { lifecycle := .Running, runtimeCount := 1,
    outboundQueue := [], inboundQueue := [],
    outboundCapacity := 8, inboundCapacity := 8 }

/-- A concrete running daemon state whose inbound queue holds one
4-byte packet. -/
def inboundState : DaemonState :=
  { lifecycle := .Running, runtimeCount := 1,
    outboundQueue := [], inboundQueue := [[7, 7, 7, 7]],
    outboundCapacity := 8, inboundCapacity := 8 }

/-- A concrete unstarted daemon state. -/
def unstartedState : DaemonState :=
  { lifecycle := .Unstarted, runtimeCount := 0,
    outboundQueue := [], inboundQueue := [],
    outboundCapacity := 0, inboundCapacity := 0 }

/-! ### Helper lemmas about the bounded buffer write -/

theorem writeBytes_take (src dst : List Nat) :
    (writeBytes src dst).take src.length = src := by
  simp [writeBytes]

theorem writeBytes_drop (src dst : List Nat) :
    (writeBytes src dst).drop src.length = dst.drop src.length := by
  simp [writeBytes]

theorem writeBytes_length (src dst : List Nat) (h : src.length ≤ dst.length) :
    (writeBytes src dst).length = dst.length := by
  simp [writeBytes]
  omega

/-! ### Claim theorems -/

/-- C1: with a too-small buffer, `recv_pkt` fails with `BufferTooSmall`
and does not consume the head packet: the whole daemon state (hence the
queue head) is unchanged and the buffer untouched; a subsequent call on
the returned state with an adequately sized buffer returns exactly that
packet's bytes, unchanged, with its exact length. -/
theorem recv_pkt_retains_packet_on_small_buffer
    (s : DaemonState) (pkt : Packet) (rest : List Packet)
    (buf1 buf2 : List Nat) (cap1 cap2 : Nat)
    (hrun : s.lifecycle = .Running)
    (hq : s.inboundQueue = pkt :: rest)
    (hsmall : cap1 < pkt.length)
    (hbig : pkt.length ≤ cap2) :
    recv_pkt s buf1 cap1 = (RECV_BUFFER_TOO_SMALL, buf1, s) ∧
    (recv_pkt (recv_pkt s buf1 cap1).2.2 buf2 cap2).1 = (pkt.length : Int) ∧
    ((recv_pkt (recv_pkt s buf1 cap1).2.2 buf2 cap2).2.1).take pkt.length
      = pkt ∧
    (recv_pkt (recv_pkt s buf1 cap1).2.2 buf2 cap2).2.2.inboundQueue
      = rest := by
  have h1 : recv_pkt s buf1 cap1 = (RECV_BUFFER_TOO_SMALL, buf1, s) := by
    simp [recv_pkt, hrun, hq, hsmall]
  have hnot : ¬ cap2 < pkt.length := Nat.not_lt.mpr hbig
  refine ⟨h1, ?_, ?_, ?_⟩ <;>
    rw [h1] <;>
    simp [recv_pkt, hrun, hq, hnot, writeBytes_take]

/-- C1 witness: a concrete 4-byte packet, a capacity-2 failure followed
by a capacity-6 retry that returns the same bytes. -/
theorem recv_pkt_retains_packet_on_small_buffer_witness :
    recv_pkt inboundState [0, 0] 2 = (RECV_BUFFER_TOO_SMALL, [0, 0], inboundState) ∧
    (recv_pkt (recv_pkt inboundState [0, 0] 2).2.2 [0, 0, 0, 0, 0, 0] 6).1
      = (4 : Int) ∧
    ((recv_pkt (recv_pkt inboundState [0, 0] 2).2.2 [0, 0, 0, 0, 0, 0] 6).2.1).take 4
      = [7, 7, 7, 7] ∧
    (recv_pkt (recv_pkt inboundState [0, 0] 2).2.2 [0, 0, 0, 0, 0, 0] 6).2.2.inboundQueue
      = [] :=
  recv_pkt_retains_packet_on_small_buffer inboundState [7, 7, 7, 7] []
    [0, 0] [0, 0, 0, 0, 0, 0] 2 6 rfl rfl (by decide) (by decide)

/-- C4: when the serialized response does not fit in the caller's
buffer, `daemon_rpc` fails with `BufferTooSmall` and the buffer is
returned entirely unchanged (no partial write); retrying the same
request with a large enough buffer then succeeds with the full response
length. -/
theorem daemon_rpc_no_partial_write_on_small_buffer
    (s : DaemonState) (resp : List Nat) (out_buf : List Nat) (out_buflen : Nat)
    (hrun : s.lifecycle = .Running)
    (hsmall : out_buflen < resp.length) :
    daemon_rpc s (.ok resp) out_buf out_buflen = (RPC_BUFFER_TOO_SMALL, out_buf) ∧
    ∀ cap2 : Nat, resp.length ≤ cap2 →
      (daemon_rpc s (.ok resp) out_buf cap2).1 = (resp.length : Int) ∧
      (daemon_rpc s (.ok resp) out_buf cap2).2.take resp.length = resp := by
  constructor
  · simp [daemon_rpc, hrun, hsmall]
  · intro cap2 hcap2
    have hnot : ¬ cap2 < resp.length := Nat.not_lt.mpr hcap2
    constructor <;> simp [daemon_rpc, hrun, hnot, writeBytes_take]

/-- C4 witness: a 4-byte response against a capacity-2 buffer fails
leaving the buffer unchanged; a capacity-8 retry succeeds. -/
theorem daemon_rpc_no_partial_write_on_small_buffer_witness :
    daemon_rpc runningState (.ok [1, 2, 3, 4]) [9, 9] 2
      = (RPC_BUFFER_TOO_SMALL, [9, 9]) ∧
    (daemon_rpc runningState (.ok [1, 2, 3, 4]) [9, 9] 8).1 = (4 : Int) ∧
    (daemon_rpc runningState (.ok [1, 2, 3, 4]) [9, 9] 8).2.take 4
      = [1, 2, 3, 4] :=
  have h := daemon_rpc_no_partial_write_on_small_buffer runningState
    [1, 2, 3, 4] [9, 9] 2 rfl (by decide)
  ⟨h.1, h.2 8 (by decide)⟩

/-- C5: every boundary operation issued while the lifecycle state is not
`Running` (before any start, or after `Failed` or `Stopped`) fails
immediately with the `NotRunning` code, changing nothing; for
`daemon_rpc` that code is the daemon-not-started constant -1. -/
theorem not_running_fails_immediately
    (s : DaemonState) (o : RpcOutcome) (pkt : Packet)
    (buf : List Nat) (cap : Nat)
    (h : s.lifecycle ≠ .Running) :
    daemon_rpc s o buf cap = (RPC_NOT_STARTED, buf) ∧
    send_pkt s pkt = (SEND_FAILURE, s) ∧
    recv_pkt s buf cap = (RECV_NOT_RUNNING, buf, s) ∧
    RPC_NOT_STARTED = -1 := by
  refine ⟨?_, ?_, ?_, rfl⟩ <;> simp [daemon_rpc, send_pkt, recv_pkt, h]

/-- C5 witness: the three operations on a concrete unstarted state. -/
theorem not_running_fails_immediately_witness :
    daemon_rpc unstartedState .jsonRpcError [3] 1 = (RPC_NOT_STARTED, [3]) ∧
    send_pkt unstartedState [1, 2] = (SEND_FAILURE, unstartedState) ∧
    recv_pkt unstartedState [3] 1 = (RECV_NOT_RUNNING, [3], unstartedState) ∧
    RPC_NOT_STARTED = -1 :=
  not_running_fails_immediately unstartedState .jsonRpcError [1, 2] [3] 1
    (by decide)

/-- C10: a successful `recv_pkt` over a buffer whose length equals the
declared capacity returns a non-negative length of at most that
capacity, and writes exactly that many bytes: the buffer keeps its
length and every cell past the returned length is unchanged. -/
theorem recv_pkt_success_within_capacity
    (s : DaemonState) (buf : List Nat) (cap : Nat)
    (hbuf : buf.length = cap)
    (hsucc : 0 ≤ (recv_pkt s buf cap).1) :
    (recv_pkt s buf cap).1 ≤ (cap : Int) ∧
    ∃ n : Nat, (recv_pkt s buf cap).1 = (n : Int) ∧
      (recv_pkt s buf cap).2.1.length = cap ∧
      (recv_pkt s buf cap).2.1.drop n = buf.drop n := by
  by_cases hrun : s.lifecycle = .Running
  · cases hq : s.inboundQueue with
    | nil =>
      exfalso
      rw [recv_pkt] at hsucc
      simp [hrun, hq, RECV_WOULD_BLOCK] at hsucc
    | cons pkt rest =>
      by_cases hfit : cap < pkt.length
      · exfalso
        rw [recv_pkt] at hsucc
        simp [hrun, hq, hfit, RECV_BUFFER_TOO_SMALL] at hsucc
      · have hle : pkt.length ≤ cap := Nat.not_lt.mp hfit
        have heq : recv_pkt s buf cap
            = ((pkt.length : Int), writeBytes pkt buf,
               { s with inboundQueue := rest }) := by
          simp [recv_pkt, hrun, hq, hfit]
        rw [heq]
        refine ⟨?_, pkt.length, rfl, ?_, writeBytes_drop pkt buf⟩
        · show (pkt.length : Int) ≤ (cap : Int)
          exact_mod_cast hle
        show (writeBytes pkt buf).length = cap
        rw [writeBytes_length pkt buf (by omega)]
        exact hbuf
  · exfalso
    rw [recv_pkt] at hsucc
    simp [hrun, RECV_NOT_RUNNING] at hsucc

/-- C10 witness: a successful concrete receive into a capacity-6
buffer. -/
theorem recv_pkt_success_within_capacity_witness :
    (recv_pkt inboundState [0, 0, 0, 0, 0, 0] 6).1 ≤ (6 : Int) ∧
    ∃ n : Nat, (recv_pkt inboundState [0, 0, 0, 0, 0, 0] 6).1 = (n : Int) ∧
      (recv_pkt inboundState [0, 0, 0, 0, 0, 0] 6).2.1.length = 6 ∧
      (recv_pkt inboundState [0, 0, 0, 0, 0, 0] 6).2.1.drop n
        = ([0, 0, 0, 0, 0, 0] : List Nat).drop n :=
  recv_pkt_success_within_capacity inboundState [0, 0, 0, 0, 0, 0] 6
    rfl (by decide)

/-! ### Correlation matching -/

theorem find_matching_unique (l : List TaggedOutcome)
    (hnd : (l.map TaggedOutcome.corrId).Nodup)
    (r : TaggedOutcome) (hr : r ∈ l) :
    l.find? (fun x => x.corrId == r.corrId) = some r := by
  induction l with
  | nil => cases hr
  | cons a t ih =>
    rw [List.map_cons, List.nodup_cons] at hnd
    rcases List.mem_cons.mp hr with heq | hmem
    · subst heq
      rw [List.find?_cons_of_pos _ (by simp)]
    · have hne : (a.corrId == r.corrId) = false := by
        rw [beq_eq_false_iff_ne]
        intro hcontra
        exact hnd.1 (hcontra ▸ List.mem_map_of_mem TaggedOutcome.corrId hmem)
      rw [List.find?_cons_of_neg _ (by simp [hne])]
      exact ih hnd.2 hmem

/-- C2: with distinct correlation identities among the outstanding
outcomes, the invocation that issued the request tagged `r.corrId`
receives exactly the outcome `r` — under every arrival order
(permutation) of the outcome stream — and any outcome delivered to it
carries its own correlation identity, never another invocation's. -/
theorem rpc_correlation_no_cross_delivery
    (arrivals : List TaggedOutcome)
    (hnd : (arrivals.map TaggedOutcome.corrId).Nodup)
    (r : TaggedOutcome) (hr : r ∈ arrivals) :
    (∀ arrivals2 : List TaggedOutcome, arrivals.Perm arrivals2 →
      deliverTo r.corrId arrivals2 = some r) ∧
    (∀ x : TaggedOutcome, deliverTo r.corrId arrivals = some x →
      x.corrId = r.corrId ∧ x = r) := by
  constructor
  · intro arrivals2 hperm
    exact find_matching_unique arrivals2
      ((hperm.map TaggedOutcome.corrId).nodup_iff.mp hnd)
      r (hperm.mem_iff.mp hr)
  · intro x hx
    have hself : deliverTo r.corrId arrivals = some r :=
      find_matching_unique arrivals hnd r hr
    rw [hself] at hx
    cases hx
    exact ⟨rfl, rfl⟩

/-- C2 witness: two concurrent outcomes delivered in reversed arrival
order still reach the invocation with the matching identity. -/
theorem rpc_correlation_no_cross_delivery_witness :
    deliverTo 2 [⟨2, .response [20]⟩, ⟨1, .response [10]⟩]
      = some ⟨2, .response [20]⟩ :=
  (rpc_correlation_no_cross_delivery
      [⟨1, .response [10]⟩, ⟨2, .response [20]⟩] (by decide)
      ⟨2, .response [20]⟩ (by decide)).1
    [⟨2, .response [20]⟩, ⟨1, .response [10]⟩] (by decide)

/-! ### Lifecycle: at most one live runtime -/

/-- C3: starting while a DaemonHandle is in `Starting` or `Running`
state fails with the distinct `AlreadyRunning` code and constructs
nothing — the state, including the count of live runtimes, is returned
unchanged; moreover every operation preserves the invariant that at
most one live tunnel runtime exists. -/
theorem start_client_already_running_single_runtime
    (s : DaemonState) (cfgValid : Bool) (outCap inCap : Nat)
    (hlive : s.lifecycle = .Starting ∨ s.lifecycle = .Running) :
    start_client s cfgValid outCap inCap = (START_ALREADY_RUNNING, s) ∧
    START_ALREADY_RUNNING ≠ START_OK ∧
    START_ALREADY_RUNNING ≠ START_INVALID_CONFIG ∧
    (∀ (t : DaemonState) (cv : Bool) (oc ic : Nat) (pkt : Packet)
       (buf : List Nat) (cap : Nat), t.runtimeCount ≤ 1 →
      (start_client t cv oc ic).2.runtimeCount ≤ 1 ∧
      (send_pkt t pkt).2.runtimeCount ≤ 1 ∧
      (recv_pkt t buf cap).2.2.runtimeCount ≤ 1) := by
  refine ⟨?_, by decide, by decide, ?_⟩
  · rcases hlive with h | h <;> simp [start_client, h]
  · intro t cv oc ic pkt buf cap hinv
    refine ⟨?_, ?_, ?_⟩
    · rw [start_client]
      cases t.lifecycle <;> dsimp <;>
        first
        | exact hinv
        | cases cv <;> simp [hinv]
    · rw [send_pkt]
      split
      · exact hinv
      · split <;> exact hinv
    · rw [recv_pkt]
      split
      · exact hinv
      · split
        · exact hinv
        · split <;> exact hinv

/-- C3 witness: starting a concrete running daemon again yields
`AlreadyRunning` and leaves the single runtime in place. -/
theorem start_client_already_running_single_runtime_witness :
    start_client runningState true 8 8 = (START_ALREADY_RUNNING, runningState) ∧
    START_ALREADY_RUNNING ≠ START_OK ∧
    START_ALREADY_RUNNING ≠ START_INVALID_CONFIG ∧
    (∀ (t : DaemonState) (cv : Bool) (oc ic : Nat) (pkt : Packet)
       (buf : List Nat) (cap : Nat), t.runtimeCount ≤ 1 →
      (start_client t cv oc ic).2.runtimeCount ≤ 1 ∧
      (send_pkt t pkt).2.runtimeCount ≤ 1 ∧
      (recv_pkt t buf cap).2.2.runtimeCount ≤ 1) :=
  start_client_already_running_single_runtime runningState true 8 8
    (Or.inr rfl)

/-! ### Outbound FIFO ordering -/

theorem interleave_sublists {a b q : List Packet} (h : Interleave a b q) :
    List.Sublist a q ∧ List.Sublist b q := by
  induction h with
  | nil => exact ⟨List.Sublist.refl [], List.Sublist.refl []⟩
  | left p _ ih => exact ⟨ih.1.cons₂ p, ih.2.cons p⟩
  | right p _ ih => exact ⟨ih.1.cons p, ih.2.cons₂ p⟩

theorem enqueueAll_running_appends
    (pkts : List Packet) (s : DaemonState)
    (hrun : s.lifecycle = .Running)
    (hcap : s.outboundQueue.length + pkts.length ≤ s.outboundCapacity) :
    (enqueueAll s pkts).1.outboundQueue = s.outboundQueue ++ pkts ∧
    (enqueueAll s pkts).2 = List.replicate pkts.length SEND_OK := by
  induction pkts generalizing s with
  | nil => simp [enqueueAll]
  | cons p rest ih =>
    rw [List.length_cons] at hcap
    have hroom : ¬ s.outboundCapacity ≤ s.outboundQueue.length := by
      omega
    have hstep : send_pkt s p
        = (SEND_OK, { s with outboundQueue := s.outboundQueue ++ [p] }) := by
      simp [send_pkt, hrun, hroom]
    have hih := ih { s with outboundQueue := s.outboundQueue ++ [p] }
      (by exact hrun) (by simp; omega)
    constructor
    · show (enqueueAll (send_pkt s p).2 rest).1.outboundQueue = _
      rw [hstep]
      rw [hih.1]
      simp
    · show (send_pkt s p).1 :: (enqueueAll (send_pkt s p).2 rest).2 = _
      rw [hstep, hih.2]
      simp [List.replicate]

/-- C6: packets enqueued via `send_pkt` by a single caller thread reach
the transport boundary (the outbound queue drained front-to-back) in
exactly the order enqueued, with every call succeeding — nothing is
reordered, deduplicated, or dropped; and under any interleaving of two
concurrent enqueuer threads, each thread's own sequence still appears in
the queue in its enqueue order (as a sublist), while the queue itself
fixes no global order beyond the interleaving. -/
theorem send_pkt_per_thread_fifo
    (s : DaemonState) (pkts : List Packet)
    (hrun : s.lifecycle = .Running)
    (hcap : s.outboundQueue.length + pkts.length ≤ s.outboundCapacity) :
    ((enqueueAll s pkts).1.outboundQueue = s.outboundQueue ++ pkts ∧
     (enqueueAll s pkts).2 = List.replicate pkts.length SEND_OK) ∧
    (∀ a b q : List Packet, Interleave a b q →
      List.Sublist a q ∧ List.Sublist b q) :=
  ⟨enqueueAll_running_appends pkts s hrun hcap,
   fun _ _ _ h => interleave_sublists h⟩

/-- C6 witness: three packets enqueued in order 1,2,3 by one thread on a
concrete running daemon arrive at the transport boundary in that
order. -/
theorem send_pkt_per_thread_fifo_witness :
    ((enqueueAll runningState [[1], [2], [3]]).1.outboundQueue
        = [[1], [2], [3]] ∧
     (enqueueAll runningState [[1], [2], [3]]).2
        = List.replicate 3 SEND_OK) ∧
    (∀ a b q : List Packet, Interleave a b q →
      List.Sublist a q ∧ List.Sublist b q) :=
  send_pkt_per_thread_fifo runningState [[1], [2], [3]] rfl (by decide)

/-! ### Discriminable boundary codes -/

/-- C7: `recv_pkt` returns a discriminable status or length: the three
negative error constants (`NotRunning`, `BufferTooSmall`, `WouldBlock`)
are pairwise distinct, every return value is either a non-negative
length or one of them, and each constant is returned exactly in its own
situation — so the caller can always tell "no data yet" from "buffer
too small" (data retained) from "hard failure". -/
theorem recv_pkt_codes_discriminable
    (s : DaemonState) (buf : List Nat) (cap : Nat) :
    (RECV_NOT_RUNNING ≠ RECV_BUFFER_TOO_SMALL ∧
     RECV_NOT_RUNNING ≠ RECV_WOULD_BLOCK ∧
     RECV_BUFFER_TOO_SMALL ≠ RECV_WOULD_BLOCK) ∧
    (0 ≤ (recv_pkt s buf cap).1 ∨
     (recv_pkt s buf cap).1 = RECV_NOT_RUNNING ∨
     (recv_pkt s buf cap).1 = RECV_BUFFER_TOO_SMALL ∨
     (recv_pkt s buf cap).1 = RECV_WOULD_BLOCK) ∧
    ((recv_pkt s buf cap).1 = RECV_NOT_RUNNING ↔ s.lifecycle ≠ .Running) ∧
    ((recv_pkt s buf cap).1 = RECV_WOULD_BLOCK ↔
      s.lifecycle = .Running ∧ s.inboundQueue = []) ∧
    ((recv_pkt s buf cap).1 = RECV_BUFFER_TOO_SMALL ↔
      s.lifecycle = .Running ∧
      ∃ pkt rest, s.inboundQueue = pkt :: rest ∧ cap < pkt.length) := by
  refine ⟨by refine ⟨?_, ?_, ?_⟩ <;> decide, ?_⟩
  by_cases hrun : s.lifecycle = .Running
  · cases hq : s.inboundQueue with
    | nil =>
      have h : (recv_pkt s buf cap).1 = RECV_WOULD_BLOCK := by
        simp [recv_pkt, hrun, hq]
      rw [h]
      simp [RECV_NOT_RUNNING, RECV_WOULD_BLOCK, RECV_BUFFER_TOO_SMALL,
        hrun, hq]
    | cons pkt rest =>
      by_cases hfit : cap < pkt.length
      · have h : (recv_pkt s buf cap).1 = RECV_BUFFER_TOO_SMALL := by
          simp [recv_pkt, hrun, hq, hfit]
        rw [h]
        refine ⟨Or.inr (Or.inr (Or.inl rfl)), ?_, ?_, ?_⟩
        · constructor
          · intro hcon
            exact absurd hcon (by decide)
          · intro hcon
            exact absurd hrun hcon
        · constructor
          · intro hcon
            exact absurd hcon (by decide)
          · rintro ⟨-, hnil⟩
            exact (List.cons_ne_nil _ _ hnil).elim
        · constructor
          · intro _
            exact ⟨hrun, pkt, rest, rfl, hfit⟩
          · intro _
            rfl
      · have hle : pkt.length ≤ cap := Nat.not_lt.mp hfit
        have h : (recv_pkt s buf cap).1 = (pkt.length : Int) := by
          simp [recv_pkt, hrun, hq, hfit]
        rw [h]
        have hpos : (0 : Int) ≤ (pkt.length : Int) := Int.natCast_nonneg _
        refine ⟨Or.inl hpos, ?_, ?_, ?_⟩
        · simp only [RECV_NOT_RUNNING, hrun]
          constructor
          · intro hcon
            omega
          · intro hcon
            exact absurd rfl hcon
        · simp only [RECV_WOULD_BLOCK, hrun, hq, true_and]
          constructor
          · intro hcon
            omega
          · intro hcon
            cases hcon
        · simp only [RECV_BUFFER_TOO_SMALL, hrun, hq, true_and,
            List.cons.injEq]
          constructor
          · intro hcon
            omega
          · rintro ⟨pkt2, rest2, ⟨h1, h2⟩, hlt⟩
            subst h1
            exact absurd hlt hfit
  · have h : (recv_pkt s buf cap).1 = RECV_NOT_RUNNING := by
      simp [recv_pkt, hrun]
    rw [h]
    simp [RECV_NOT_RUNNING, RECV_WOULD_BLOCK, RECV_BUFFER_TOO_SMALL, hrun]

/-- C7 witness: on a concrete unstarted state the returned code is
exactly the `NotRunning` constant, recovered through the theorem's
characterization. -/
theorem recv_pkt_codes_discriminable_witness :
    (recv_pkt unstartedState [] 0).1 = RECV_NOT_RUNNING :=
  ((recv_pkt_codes_discriminable unstartedState [] 0).2.2.1).mpr (by decide)

/-- C8: `daemon_rpc` returns exactly one of: a non-negative length equal
to the number of response bytes written into the buffer (at most the
declared capacity, the rest of the buffer untouched), or one of the four
pairwise-distinct negative constants -1 (daemon not started), -2
(JSON-RPC error), -3 (buffer not big enough), -4 (writing to buffer
failed); no other value occurs. -/
theorem daemon_rpc_return_value_space
    (s : DaemonState) (o : RpcOutcome) (buf : List Nat) (cap : Nat) :
    (RPC_NOT_STARTED = -1 ∧ RPC_JSONRPC_ERROR = -2 ∧
     RPC_BUFFER_TOO_SMALL = -3 ∧ RPC_WRITE_FAILED = -4) ∧
    ((∃ resp : List Nat, o = .ok resp ∧ resp.length ≤ cap ∧
        daemon_rpc s o buf cap = ((resp.length : Int), writeBytes resp buf)) ∨
     (daemon_rpc s o buf cap).1 = RPC_NOT_STARTED ∨
     (daemon_rpc s o buf cap).1 = RPC_JSONRPC_ERROR ∨
     (daemon_rpc s o buf cap).1 = RPC_BUFFER_TOO_SMALL ∨
     (daemon_rpc s o buf cap).1 = RPC_WRITE_FAILED) := by
  refine ⟨⟨rfl, rfl, rfl, rfl⟩, ?_⟩
  by_cases hrun : s.lifecycle = .Running
  · cases o with
    | jsonRpcError =>
      right; right; left
      simp [daemon_rpc, hrun]
    | writeFailed =>
      right; right; right; right
      simp [daemon_rpc, hrun]
    | ok resp =>
      by_cases hfit : cap < resp.length
      · right; right; right; left
        simp [daemon_rpc, hrun, hfit]
      · left
        exact ⟨resp, rfl, Nat.not_lt.mp hfit, by simp [daemon_rpc, hrun, hfit]⟩
  · right; left
    simp [daemon_rpc, hrun]

/-- C8 witness: the four documented constants at their concrete
values. -/
theorem daemon_rpc_return_value_space_witness :
    RPC_NOT_STARTED = -1 ∧ RPC_JSONRPC_ERROR = -2 ∧
    RPC_BUFFER_TOO_SMALL = -3 ∧ RPC_WRITE_FAILED = -4 :=
  (daemon_rpc_return_value_space runningState .jsonRpcError [] 0).1

/-- C9: `send_pkt` returns exactly 0 on success or exactly -1 on
failure, and every failure cause — daemon not running, or the
queue-full deadline exceeded — yields the very same -1, so the caller
cannot distinguish `NotRunning` from any other send failure at this
interface. -/
theorem send_pkt_collapses_failures (s : DaemonState) (pkt : Packet) :
    (SEND_OK = 0 ∧ SEND_FAILURE = -1) ∧
    ((send_pkt s pkt).1 = SEND_OK ∨ (send_pkt s pkt).1 = SEND_FAILURE) ∧
    (s.lifecycle ≠ .Running → send_pkt s pkt = (SEND_FAILURE, s)) ∧
    (s.lifecycle = .Running → s.outboundCapacity ≤ s.outboundQueue.length →
      send_pkt s pkt = (SEND_FAILURE, s)) := by
  refine ⟨⟨rfl, rfl⟩, ?_, ?_, ?_⟩
  · by_cases hrun : s.lifecycle = .Running
    · by_cases hfull : s.outboundCapacity ≤ s.outboundQueue.length
      · right
        simp [send_pkt, hrun, hfull]
      · left
        simp [send_pkt, hrun, hfull]
    · right
      simp [send_pkt, hrun]
  · intro h
    simp [send_pkt, h]
  · intro hrun hfull
    simp [send_pkt, hrun, hfull]

/-- C9 witness: on a concrete unstarted state the send fails with the
single collapsed failure code. -/
theorem send_pkt_collapses_failures_witness :
    send_pkt unstartedState [5] = (SEND_FAILURE, unstartedState) :=
  (send_pkt_collapses_failures unstartedState [5]).2.2.1 (by decide)

end Geph5Client
